import Mathlib

/-!
Verification of the sky-temperature correction core of the aag-weather
repository (src/aag/sky_temperature.py).

The Python source works on IEEE-754 doubles.  The main model below embeds the
arithmetic over the real numbers: `td` is the drift-compensation term
`_td(ta, c)`, `tsky` the corrected sky temperature, and `classify_cloud_state`
the threshold classifier.  Python's `math.copysign` treats the sign of zero as
positive (there is no negative real zero in the model), and Python's truthiness
test `if c.K3:` on a float means `c.K3 ≠ 0`.

Two refinements of the model capture float-specific behaviour of the source
that the real numbers cannot express:

* `tskyF` (and `expF`, `powF`, `term2F`, `tdF`) model the evaluation of the
  `term2` expression at float granularity: `math.exp` raises `OverflowError`
  when its true value exceeds the largest finite double `floatMax`, and
  silently underflows to `0.0` when its true value is below the underflow
  threshold `floatTiny`; the float power `b ** e` raises `ZeroDivisionError`
  when `b = 0` and `e < 0`, and `OverflowError` when its value exceeds
  `floatMax`.  The `try/except OverflowError` of the source turns an
  `OverflowError` anywhere inside the expression into `term2 = 0`, while any
  other exception propagates.  Rounding of in-range values is abstracted
  away (in-range results are kept exact); only the overflow and
  underflow-to-zero thresholds are modelled, which is all the claims need.

* `classifyF` extends the classifier to a float domain `FVal` that contains a
  NaN value, with the IEEE comparison semantics used by Python: any `<` or `>`
  comparison involving NaN is false.
-/

/-- Coefficient record: the source accepts any object exposing float
attributes K1..K7 (the `_HasCoeffs` protocol). -/
structure Coeffs where
  K1 : ℝ
  K2 : ℝ
  K3 : ℝ
  K4 : ℝ
  K5 : ℝ
  K6 : ℝ
  K7 : ℝ

/-- Python `math.copysign x s`: magnitude of `x` with the sign of `s`,
where the sign of (real) zero is positive. -/
noncomputable def copysign (x s : ℝ) : ℝ :=
  if s < 0 then -|x| else |x|

/-- Drift-compensation term `_td(ta, c)` of the source, over the reals
(where the exponential neither overflows nor underflows, so the
`except OverflowError` branch is unreachable and `if c.K3:` is `c.K3 ≠ 0`). -/
noncomputable def td (ta : ℝ) (c : Coeffs) : ℝ :=
  let term1 := c.K1 / 100 * (ta - c.K2 / 10)
  let term2 := if c.K3 = 0 then 0 else c.K3 / 100 * Real.exp (c.K4 / 1000 * ta) ^ (c.K5 / 100)
  let delta := |c.K2 / 10 - ta|
  let t67 :=
    if delta < 1 then copysign delta c.K6
    else c.K6 / 10 * copysign 1 (ta - c.K2 / 10) * (Real.logb 10 delta + c.K7 / 100)
  term1 + term2 + t67

/-- Corrected sky temperature `tsky(ts, ta, coeffs)` of the source. -/
noncomputable def tsky (ts ta : ℝ) (c : Coeffs) : ℝ :=
  ts - td ta c

/-- The `CloudState` IntEnum of the source. -/
inductive CloudState where
  | CLEAR : CloudState
  | CLOUDY : CloudState
  | VERY_CLOUDY : CloudState
deriving DecidableEq

/-- Numeric value of the IntEnum members: CLEAR = 0, CLOUDY = 1,
VERY_CLOUDY = 2. -/
def CloudState.val : CloudState → ℕ
  | .CLEAR => 0
  | .CLOUDY => 1
  | .VERY_CLOUDY => 2

/-- The classifier `classify_cloud_state(tsky_val, clear_limit, cloudy_limit)`
of the source (the source defaults the boundaries to -17 and -8; they are
passed explicitly here). -/
noncomputable def classify_cloud_state (tsky_val clear_limit cloudy_limit : ℝ) : CloudState :=
  if tsky_val < clear_limit then .CLEAR
  else if tsky_val > cloudy_limit then .VERY_CLOUDY
  else .CLOUDY

/-- The default coefficients of the source's CLI harness
(K1=33, K2=0, K3=0, K4=0, K5=0, K6=140, K7=40). -/
def defaultCoeffs : Coeffs := ⟨33, 0, 0, 0, 0, 140, 40⟩

/-- C1: for every raw sky temperature ts, ambient temperature ta and
coefficient set, tsky returns ts minus the drift term
term1 + term2 + t67, with term1 = (K1/100)(ta - K2/10), term2 zero when
K3 = 0 and otherwise (K3/100) * exp(K4/1000*ta) ^ (K5/100), and t67 chosen by
the delta = |K2/10 - ta| branch: copysign delta K6 when delta < 1, else
(K6/10) * sign(ta - K2/10) * (log10 delta + K7/100) with sign computed as
copysign 1. -/
theorem tsky_formula (ts ta : ℝ) (c : Coeffs) :
    tsky ts ta c =
      ts - (c.K1 / 100 * (ta - c.K2 / 10)
        + (if c.K3 = 0 then 0 else c.K3 / 100 * Real.exp (c.K4 / 1000 * ta) ^ (c.K5 / 100))
        + (if |c.K2 / 10 - ta| < 1 then copysign (|c.K2 / 10 - ta|) c.K6
           else c.K6 / 10 * copysign 1 (ta - c.K2 / 10)
             * (Real.logb 10 (|c.K2 / 10 - ta|) + c.K7 / 100))) :=
  rfl

/-- C6: tsky is linear in its first argument: shifting the raw reading by d
shifts the corrected value by exactly d. -/
theorem tsky_linear (ts ta d : ℝ) (c : Coeffs) :
    tsky (ts + d) ta c = tsky ts ta c + d := by
  unfold tsky
  ring

/-- C2 counterexample: the claim asserts classify(clear_limit) = CLOUDY for
every pair of boundaries, but with the inverted pair clear_limit = 0,
cloudy_limit = -1 the value clear_limit is classified VERY_CLOUDY. -/
theorem classify_boundary_counterexample :
    classify_cloud_state 0 0 (-1) ≠ CloudState.CLOUDY := by
  have h : classify_cloud_state 0 0 (-1) = CloudState.VERY_CLOUDY := by
    unfold classify_cloud_state
    rw [if_neg (by norm_num), if_pos (by norm_num)]
  rw [h]
  decide

/-- C2 (amended): for every t and boundaries, classify returns CLEAR iff
t < clear_limit, VERY_CLOUDY iff t is not below clear_limit and
t > cloudy_limit, and CLOUDY otherwise; and whenever
clear_limit ≤ cloudy_limit both boundary values themselves are classified
CLOUDY. -/
theorem classify_cases (t cl cu : ℝ) :
    (classify_cloud_state t cl cu = CloudState.CLEAR ↔ t < cl)
    ∧ (classify_cloud_state t cl cu = CloudState.VERY_CLOUDY ↔ ¬ t < cl ∧ cu < t)
    ∧ (classify_cloud_state t cl cu = CloudState.CLOUDY ↔ ¬ t < cl ∧ ¬ cu < t)
    ∧ (cl ≤ cu →
        classify_cloud_state cl cl cu = CloudState.CLOUDY
        ∧ classify_cloud_state cu cl cu = CloudState.CLOUDY) := by
  unfold classify_cloud_state
  refine ⟨?_, ?_, ?_, ?_⟩
  · split_ifs with h1 h2 <;> simp_all
  · split_ifs with h1 h2 <;> simp_all
  · split_ifs with h1 h2 <;> simp_all
  · intro hle
    constructor
    · rw [if_neg (lt_irrefl cl), if_neg (by simpa using hle)]
    · rw [if_neg (by simpa using hle), if_neg (lt_irrefl cu)]

/-- C2 witness: at the default boundaries -17 ≤ -8, both boundary values are
classified CLOUDY. -/
theorem classify_cases_witness :
    classify_cloud_state (-17) (-17) (-8) = CloudState.CLOUDY
    ∧ classify_cloud_state (-8) (-17) (-8) = CloudState.CLOUDY :=
  (classify_cases 0 (-17) (-8)).2.2.2 (by norm_num)

/-- C5: the classifier is monotone for fixed boundaries: if t1 ≤ t2 then the
state of t1 is at most the state of t2 in the order
CLEAR (0) < CLOUDY (1) < VERY_CLOUDY (2). -/
theorem classify_monotone (cl cu t1 t2 : ℝ) (h : t1 ≤ t2) :
    (classify_cloud_state t1 cl cu).val ≤ (classify_cloud_state t2 cl cu).val := by
  unfold classify_cloud_state
  split_ifs with h1 h2 h3 h4 h5 h6 h7 h8 <;>
    simp_all [CloudState.val] <;> linarith

/-- C5 witness: -20 ≤ 0 and at the default boundaries the state of -20 is at
most the state of 0. -/
theorem classify_monotone_witness :
    (classify_cloud_state (-20) (-17) (-8)).val
      ≤ (classify_cloud_state 0 (-17) (-8)).val :=
  classify_monotone (-17) (-8) (-20) 0 (by norm_num)

/-- C9: with the default coefficients and default boundaries -17 / -8:
tsky (-30) 10 = -52.9 which classifies CLEAR, and tsky (-5) 0 = -5 which
classifies VERY_CLOUDY. -/
theorem default_examples :
    tsky (-30) 10 defaultCoeffs = -52.9
    ∧ classify_cloud_state (-52.9) (-17) (-8) = CloudState.CLEAR
    ∧ tsky (-5) 0 defaultCoeffs = -5
    ∧ classify_cloud_state (-5) (-17) (-8) = CloudState.VERY_CLOUDY := by
  have hlog : Real.logb 10 10 = 1 := Real.logb_self_eq_one (by norm_num)
  refine ⟨?_, ?_, ?_, ?_⟩
  · unfold tsky td copysign defaultCoeffs
    norm_num [hlog]
  · unfold classify_cloud_state
    rw [if_pos (by norm_num)]
  · unfold tsky td copysign defaultCoeffs
    norm_num
  · unfold classify_cloud_state
    rw [if_neg (by norm_num), if_pos (by norm_num)]

/-- Float domain for the classifier: a real value or NaN.  Infinities behave
like ordinary ordered values in the comparisons of the source and no claim
involves them, so they are not distinguished here. -/
inductive FVal where
  | nan : FVal
  | val : ℝ → FVal

/-- IEEE-754 strict less-than on floats as used by Python: any comparison
involving NaN is false. -/
noncomputable def FVal.lt : FVal → FVal → Bool
  | .val x, .val y => decide (x < y)
  | _, _ => false

/-- The classifier of the source over the float domain: `tsky_val < clear_limit`
is `FVal.lt tsky_val clear_limit` and `tsky_val > cloudy_limit` is
`FVal.lt cloudy_limit tsky_val`. -/
noncomputable def classifyF (tsky_val clear_limit cloudy_limit : FVal) : CloudState :=
  if FVal.lt tsky_val clear_limit then .CLEAR
  else if FVal.lt cloudy_limit tsky_val then .VERY_CLOUDY
  else .CLOUDY

/-- On NaN-free inputs the float classifier agrees with the real model. -/
theorem classifyF_val (t cl cu : ℝ) :
    classifyF (FVal.val t) (FVal.val cl) (FVal.val cu) = classify_cloud_state t cl cu := by
  unfold classifyF classify_cloud_state FVal.lt
  simp only [decide_eq_true_eq]

/-- C10: for every pair of boundaries (any float values, NaN included), the
classifier applied to a NaN corrected temperature returns CLOUDY, because both
strict comparisons are false for NaN. -/
theorem classifyF_nan (cl cu : FVal) :
    classifyF FVal.nan cl cu = CloudState.CLOUDY := by
  cases cl <;> cases cu <;> rfl

/-- C7: when K3 = 0 the term2 contribution is exactly 0 whatever K4 and K5
are: the drift term reduces to term1 + 0 + t67, and two coefficient sets that
agree on K1, K2, K6, K7 and both have K3 = 0 give the same corrected value. -/
theorem tsky_K3_zero (ts ta : ℝ) (c c' : Coeffs)
    (h3 : c.K3 = 0) (h3' : c'.K3 = 0)
    (h1 : c.K1 = c'.K1) (h2 : c.K2 = c'.K2) (h6 : c.K6 = c'.K6) (h7 : c.K7 = c'.K7) :
    tsky ts ta c =
      ts - (c.K1 / 100 * (ta - c.K2 / 10) + 0
        + (if |c.K2 / 10 - ta| < 1 then copysign (|c.K2 / 10 - ta|) c.K6
           else c.K6 / 10 * copysign 1 (ta - c.K2 / 10)
             * (Real.logb 10 (|c.K2 / 10 - ta|) + c.K7 / 100)))
    ∧ tsky ts ta c = tsky ts ta c' := by
  constructor
  · unfold tsky td
    rw [if_pos h3]
  · unfold tsky td
    rw [if_pos h3, if_pos h3', h1, h2, h6, h7]

/-- C7 witness: two coefficient sets with K3 = 0 that differ only in K4 and
K5 give the same corrected value at ts = 1, ta = 2. -/
theorem tsky_K3_zero_witness :
    (tsky 1 2 ⟨33, 0, 0, 5, 7, 140, 40⟩ =
      1 - ((33 : ℝ) / 100 * (2 - 0 / 10) + 0
        + (if |(0 : ℝ) / 10 - 2| < 1 then copysign (|(0 : ℝ) / 10 - 2|) 140
           else (140 : ℝ) / 10 * copysign 1 (2 - 0 / 10)
             * (Real.logb 10 (|(0 : ℝ) / 10 - 2|) + 40 / 100))))
    ∧ tsky 1 2 ⟨33, 0, 0, 5, 7, 140, 40⟩ = tsky 1 2 ⟨33, 0, 0, -9, 2, 140, 40⟩ :=
  tsky_K3_zero 1 2 ⟨33, 0, 0, 5, 7, 140, 40⟩ ⟨33, 0, 0, -9, 2, 140, 40⟩
    rfl rfl rfl rfl rfl rfl

/-- C8: when delta = |K2/10 - ta| < 1 the third drift component is
copysign delta K6 (magnitude delta, sign of K6, sign of zero positive), and the
drift term does not depend on K7 (the logarithmic branch, the only place K7
occurs, is not taken). -/
theorem td_near_field (ta : ℝ) (c c' : Coeffs)
    (hd : |c.K2 / 10 - ta| < 1)
    (h1 : c.K1 = c'.K1) (h2 : c.K2 = c'.K2) (h3 : c.K3 = c'.K3)
    (h4 : c.K4 = c'.K4) (h5 : c.K5 = c'.K5) (h6 : c.K6 = c'.K6) :
    td ta c = c.K1 / 100 * (ta - c.K2 / 10)
      + (if c.K3 = 0 then 0 else c.K3 / 100 * Real.exp (c.K4 / 1000 * ta) ^ (c.K5 / 100))
      + copysign (|c.K2 / 10 - ta|) c.K6
    ∧ td ta c = td ta c' := by
  have hd' : |c'.K2 / 10 - ta| < 1 := by rwa [h2] at hd
  constructor
  · simp only [td]
    rw [if_pos hd]
  · simp only [td]
    rw [h1, h2, h3, h4, h5, h6, if_pos hd', if_pos hd']

/-- C8 witness: at ta = 0 with the default coefficients (K2 = 0, so
delta = 0 < 1) the near-field branch applies, and changing K7 to 99 does not
change the drift term. -/
theorem td_near_field_witness :
    (td 0 ⟨33, 0, 0, 0, 0, 140, 40⟩ =
      (33 : ℝ) / 100 * (0 - 0 / 10)
        + (if (0 : ℝ) = 0 then 0 else (0 : ℝ) / 100 * Real.exp (0 / 1000 * 0) ^ ((0 : ℝ) / 100))
        + copysign (|(0 : ℝ) / 10 - 0|) 140)
    ∧ td 0 ⟨33, 0, 0, 0, 0, 140, 40⟩ = td 0 ⟨33, 0, 0, 0, 0, 140, 99⟩ :=
  td_near_field 0 ⟨33, 0, 0, 0, 0, 140, 40⟩ ⟨33, 0, 0, 0, 0, 140, 99⟩
    (by norm_num) rfl rfl rfl rfl rfl rfl

/-- Python exceptions that the term2 expression of the source can raise:
OverflowError (from math.exp or the float power) and ZeroDivisionError
(from raising float zero to a negative power). -/
inductive PyErr where
  | overflow : PyErr
  | zeroDivision : PyErr
deriving DecidableEq

/-- Largest finite IEEE-754 double, 2^1024 - 2^971. -/
noncomputable def floatMax : ℝ := 2 ^ (1024 : ℕ) - 2 ^ (971 : ℕ)

/-- Underflow-to-zero threshold of IEEE-754 doubles: positive values below
2^(-1075) round to 0.0. -/
noncomputable def floatTiny : ℝ := ((2 : ℝ) ^ (1075 : ℕ))⁻¹

/-- Python math.exp at float granularity: OverflowError when the true value
exceeds the largest finite double, silent underflow to 0.0 when it is below
the underflow threshold, the exact value otherwise. -/
noncomputable def expF (x : ℝ) : Except PyErr ℝ :=
  if floatMax < Real.exp x then .error .overflow
  else if Real.exp x < floatTiny then .ok 0
  else .ok (Real.exp x)

/-- Python float power b ** e for b ≥ 0: ZeroDivisionError when b = 0 and
e < 0, OverflowError when the true value exceeds the largest finite double,
the exact real power otherwise (0 ** 0 = 1 and 0 ** positive = 0, as in
Python). -/
noncomputable def powF (b e : ℝ) : Except PyErr ℝ :=
  if b = 0 ∧ e < 0 then .error .zeroDivision
  else if floatMax < b ^ e then .error .overflow
  else .ok (b ^ e)

/-- Evaluation of term2 in the source at float granularity: 0 when K3 is
falsy, otherwise (K3/100) * exp(K4/1000*ta) ** (K5/100) inside a
try/except OverflowError that turns an OverflowError anywhere in the
expression into 0; a ZeroDivisionError is not caught and propagates. -/
noncomputable def term2F (ta : ℝ) (c : Coeffs) : Except PyErr ℝ :=
  if c.K3 = 0 then .ok 0
  else
    match expF (c.K4 / 1000 * ta) with
    | .error .overflow => .ok 0
    | .error .zeroDivision => .error .zeroDivision
    | .ok v =>
      match powF v (c.K5 / 100) with
      | .error .overflow => .ok 0
      | .error .zeroDivision => .error .zeroDivision
      | .ok w => .ok (c.K3 / 100 * w)

/-- The drift term _td at float granularity for term2; term1 and t67 involve
no overflow-prone library call that raises, so they keep their real values. -/
noncomputable def tdF (ta : ℝ) (c : Coeffs) : Except PyErr ℝ :=
  (term2F ta c).map fun term2 =>
    c.K1 / 100 * (ta - c.K2 / 10) + term2 +
      (if |c.K2 / 10 - ta| < 1 then copysign (|c.K2 / 10 - ta|) c.K6
       else c.K6 / 10 * copysign 1 (ta - c.K2 / 10)
         * (Real.logb 10 (|c.K2 / 10 - ta|) + c.K7 / 100))

/-- The corrected sky temperature tsky at float granularity. -/
noncomputable def tskyF (ts ta : ℝ) (c : Coeffs) : Except PyErr ℝ :=
  (tdF ta c).map fun d => ts - d

/-- The exponential dominates powers of two: 2^2000 ≤ exp 2000. -/
theorem two_pow_le_exp_2000 : (2 : ℝ) ^ (2000 : ℕ) ≤ Real.exp 2000 := by
  have h2 : (2 : ℝ) ≤ Real.exp 1 := by
    have h := Real.add_one_le_exp (1 : ℝ)
    linarith
  calc (2 : ℝ) ^ (2000 : ℕ) ≤ Real.exp 1 ^ (2000 : ℕ) :=
        pow_le_pow_left₀ (by norm_num) h2 2000
    _ = Real.exp ((2000 : ℕ) * 1) := (Real.exp_nat_mul 1 2000).symm
    _ = Real.exp 2000 := by norm_num

/-- A coefficient set on which the source raises an uncaught exception:
K1=0, K2=0, K3=100, K4=1000, K5=-100, K6=0, K7=0. -/
def badCoeffs : Coeffs := ⟨0, 0, 100, 1000, -100, 0, 0⟩

/-- C3 refutation: the source is not total.  At ts = 0, ta = -2000 with
badCoeffs, math.exp(-2000) silently underflows to 0.0 and 0.0 ** (-1.0)
raises ZeroDivisionError, which the except OverflowError clause does not
catch, so tsky raises instead of returning a float. -/
theorem tskyF_zero_division :
    tskyF 0 (-2000) badCoeffs = Except.error PyErr.zeroDivision := by
  have harg : badCoeffs.K4 / 1000 * (-2000) = (-2000 : ℝ) := by
    norm_num [badCoeffs]
  have hexp_le_one : Real.exp (-2000 : ℝ) ≤ 1 := by
    rw [show (1 : ℝ) = Real.exp 0 from Real.exp_zero.symm]
    exact Real.exp_le_exp.mpr (by norm_num)
  have hnotov : ¬ floatMax < Real.exp (-2000 : ℝ) := by
    have hfm : (1 : ℝ) ≤ floatMax := by
      unfold floatMax
      norm_num
    push_neg
    linarith
  have htiny : Real.exp (-2000 : ℝ) < floatTiny := by
    rw [Real.exp_neg, floatTiny]
    exact inv_strictAnti₀ (by positivity)
      (lt_of_lt_of_le (by norm_num) two_pow_le_exp_2000)
  have hexp : expF (badCoeffs.K4 / 1000 * (-2000)) = Except.ok 0 := by
    rw [harg]
    unfold expF
    rw [if_neg hnotov, if_pos htiny]
  have hpow : powF 0 (badCoeffs.K5 / 100) = Except.error PyErr.zeroDivision := by
    unfold powF
    rw [if_pos ⟨rfl, by norm_num [badCoeffs]⟩]
  have hterm2 : term2F (-2000) badCoeffs = Except.error PyErr.zeroDivision := by
    unfold term2F
    rw [if_neg (by norm_num [badCoeffs])]
    simp only [hexp, hpow]
  unfold tskyF tdF
  rw [hterm2]
  rfl

/-- C4: if the exponential in term2 overflows the representable float range,
the except clause of the source takes term2 to be exactly 0, the failure is
never surfaced, and the corrected value is ts - (term1 + 0 + t67). -/
theorem tskyF_overflow (ts ta : ℝ) (c : Coeffs)
    (hov : floatMax < Real.exp (c.K4 / 1000 * ta)) :
    tskyF ts ta c =
      Except.ok (ts - (c.K1 / 100 * (ta - c.K2 / 10) + 0
        + (if |c.K2 / 10 - ta| < 1 then copysign (|c.K2 / 10 - ta|) c.K6
           else c.K6 / 10 * copysign 1 (ta - c.K2 / 10)
             * (Real.logb 10 (|c.K2 / 10 - ta|) + c.K7 / 100)))) := by
  have hexp : expF (c.K4 / 1000 * ta) = Except.error PyErr.overflow := by
    unfold expF
    rw [if_pos hov]
  have hterm2 : term2F ta c = Except.ok 0 := by
    unfold term2F
    by_cases h3 : c.K3 = 0
    · rw [if_pos h3]
    · rw [if_neg h3]
      simp only [hexp]
  unfold tskyF tdF
  rw [hterm2]
  rfl

/-- A coefficient set whose exponential overflows at ta = 1:
K4/1000 * 1 = 2000 and exp 2000 exceeds the largest finite double. -/
def ovCoeffs : Coeffs := ⟨0, 0, 1, 2000000, 0, 0, 0⟩

/-- C4 witness: at ts = 5, ta = 1 with ovCoeffs the exponential overflows and
the corrected value is ts - (term1 + 0 + t67). -/
theorem tskyF_overflow_witness :
    floatMax < Real.exp (ovCoeffs.K4 / 1000 * 1)
    ∧ tskyF 5 1 ovCoeffs =
      Except.ok (5 - (ovCoeffs.K1 / 100 * (1 - ovCoeffs.K2 / 10) + 0
        + (if |ovCoeffs.K2 / 10 - 1| < 1 then copysign (|ovCoeffs.K2 / 10 - 1|) ovCoeffs.K6
           else ovCoeffs.K6 / 10 * copysign 1 (1 - ovCoeffs.K2 / 10)
             * (Real.logb 10 (|ovCoeffs.K2 / 10 - 1|) + ovCoeffs.K7 / 100)))) := by
  have hov : floatMax < Real.exp (ovCoeffs.K4 / 1000 * 1) := by
    have harg : ovCoeffs.K4 / 1000 * 1 = (2000 : ℝ) := by norm_num [ovCoeffs]
    rw [harg]
    calc floatMax < (2 : ℝ) ^ (2000 : ℕ) := by
          unfold floatMax
          norm_num
      _ ≤ Real.exp 2000 := two_pow_le_exp_2000
  exact ⟨hov, tskyF_overflow 5 1 ovCoeffs hov⟩
